import Mathlib

/-!
# Filmbibliotek: the movie-catalog service and client

A shallow embedding of `src/server/server.js` (request validation and the four
route handlers over the `movies` table) and of `src/client/script.js`
(`sortMovies` and the pre-validation of the submit handler), followed by the
properties proved about them.

Conventions of the embedding:

* a JavaScript value is a `JSVal`; a JavaScript number is a `JSNum`, either NaN,
  an infinity, or a finite value kept as the exact rational it denotes (every
  finite double is a rational; negative zero is identified with zero, and the
  program never tells them apart);
* a JavaScript string is a Lean `String`;
* a thrown exception is the `error` case of `Except JSError`;
* the `movies` table is a list of rows in rowid order together with the
  AUTOINCREMENT counter.
-/

namespace Filmbibliotek

/-! ## JavaScript values -/

/-- A JavaScript number: NaN, plus or minus Infinity, or a finite value. -/
inductive JSNum where
  | nan
  | inf (neg : Bool)
  | fin (q : ℚ)
  deriving DecidableEq

/-- A value that `express.json()` can put in a field of `req.body`; `undefined`
is what reading an absent property gives. -/
inductive JSVal where
  | undefined
  | null
  | bool (b : Bool)
  | num (n : JSNum)
  | str (s : String)
  | arr (items : List JSVal)
  | obj (props : List (String × JSVal))

/-- The exceptions the modelled code can raise. -/
inductive JSError where
  | typeError
  deriving DecidableEq

/-- The relational operator `a < b` on numbers (false when either side is NaN). -/
def JSNum.lt : JSNum → JSNum → Bool
  | .nan, _ => false
  | _, .nan => false
  | .inf true, .inf true => false
  | .inf true, _ => true
  | _, .inf true => false
  | .inf false, _ => false
  | .fin _, .inf false => true
  | .fin a, .fin b => decide (a < b)

/-- The relational operator `a > b`, which JavaScript evaluates as `b < a`. -/
def JSNum.gt (a b : JSNum) : Bool := JSNum.lt b a

/-- The builtin `Number.isInteger`. -/
def JSNum.isInteger : JSNum → Bool
  | .fin q => decide (q.den = 1)
  | _ => false

/-- The number denoted by an integer literal of the source. -/
def JSNum.ofInt (n : Int) : JSNum := .fin n

/-- ToBoolean: the falsy values are `undefined`, `null`, `false`, `0`, `NaN`
and the empty string. -/
def truthy : JSVal → Bool
  | .undefined => false
  | .null => false
  | .bool b => b
  | .num .nan => false
  | .num (.inf _) => true
  | .num (.fin q) => decide (q ≠ 0)
  | .str s => decide (s ≠ "")
  | .arr _ => true
  | .obj _ => true

/-! ## Strings: `trim` and the conversion to a number -/

/-- The code points `String.prototype.trim` strips: WhiteSpace and
LineTerminator of ECMAScript. -/
def isJSWhiteSpace (c : Char) : Bool :=
  let n := c.toNat
  n = 0x09 || n = 0x0A || n = 0x0B || n = 0x0C || n = 0x0D || n = 0x20 || n = 0xA0 ||
  n = 0x1680 || (0x2000 ≤ n && n ≤ 0x200A) || n = 0x2028 || n = 0x2029 ||
  n = 0x202F || n = 0x205F || n = 0x3000 || n = 0xFEFF

/-- The characters of a string with leading and trailing white space removed. -/
def trimChars (l : List Char) : List Char :=
  (l.dropWhile isJSWhiteSpace).rdropWhile isJSWhiteSpace

/-- The builtin `String.prototype.trim`. -/
def jsTrim (s : String) : String := String.mk (trimChars s.data)

/-- The value of a run of decimal digits. -/
def digitsVal (ds : List Char) : Nat :=
  ds.foldl (fun acc c => 10 * acc + (c.toNat - 48)) 0

/-- The value of a hexadecimal, octal or binary digit, when it is one for the base. -/
def radixDigit (base : Nat) (c : Char) : Option Nat :=
  let n := c.toNat
  let v : Option Nat :=
    if 48 ≤ n ∧ n ≤ 57 then some (n - 48)
    else if 97 ≤ n ∧ n ≤ 102 then some (n - 87)
    else if 65 ≤ n ∧ n ≤ 70 then some (n - 55)
    else none
  match v with
  | some d => if d < base then some d else none
  | none => none

/-- The value of a non-empty run of digits in the given base, `none` when a
character is not a digit of that base or the run is empty. -/
def radixVal (base : Nat) (ds : List Char) : Option Nat :=
  if ds = [] then none
  else ds.foldl (fun acc c =>
    match acc, radixDigit base c with
    | some a, some d => some (base * a + d)
    | _, _ => none) (some 0)

/-- The ExponentPart of a decimal literal, read from what follows the mantissa:
`some 0` when nothing follows, `none` when what follows is not an exponent. -/
def parseExponent (l : List Char) : Option Int :=
  match l with
  | [] => some 0
  | c :: r =>
    if c = 'e' ∨ c = 'E' then
      let signed : Bool × List Char :=
        match r with
        | '+' :: t => (false, t)
        | '-' :: t => (true, t)
        | _ => (false, r)
      let ds := signed.2.takeWhile Char.isDigit
      let rest := signed.2.dropWhile Char.isDigit
      if ds ≠ [] ∧ rest = [] then
        some (if signed.1 then -(digitsVal ds : Int) else (digitsVal ds : Int))
      else none
    else none

/-- The rational `m * 10 ^ e`. -/
def scale10 (m : Nat) (e : Int) : ℚ :=
  if 0 ≤ e then ((m * 10 ^ e.toNat : Nat) : ℚ) else mkRat m (10 ^ (-e).toNat)

/-- StrUnsignedDecimalLiteral: `Infinity`, or digits with an optional fraction
and exponent. The result is the mathematical value of the literal, kept exact:
its rounding to the nearest double is not modelled. -/
def parseUnsignedDecimal (l : List Char) : JSNum :=
  if l = "Infinity".data then .inf false
  else
    let ip := l.takeWhile Char.isDigit
    let r1 := l.dropWhile Char.isDigit
    match r1 with
    | '.' :: r2 =>
      let fp := r2.takeWhile Char.isDigit
      let r3 := r2.dropWhile Char.isDigit
      if ip = [] ∧ fp = [] then .nan
      else match parseExponent r3 with
        | some e => .fin (scale10 (digitsVal (ip ++ fp)) (e - fp.length))
        | none => .nan
    | _ =>
      if ip = [] then .nan
      else match parseExponent r1 with
        | some e => .fin (scale10 (digitsVal ip) e)
        | none => .nan

/-- Negation of a number. -/
def JSNum.neg : JSNum → JSNum
  | .nan => .nan
  | .inf b => .inf (!b)
  | .fin q => .fin (-q)

/-- StringToNumber: the number a string converts to under `Number(...)`. White
space around the literal is ignored, the empty string is `0`, and a string that
is not a StringNumericLiteral is NaN. -/
def stringToNumber (s : String) : JSNum :=
  match trimChars s.data with
  | [] => .fin 0
  | '0' :: x :: r =>
    if x = 'x' ∨ x = 'X' then
      match radixVal 16 r with | some v => .fin v | none => .nan
    else if x = 'o' ∨ x = 'O' then
      match radixVal 8 r with | some v => .fin v | none => .nan
    else if x = 'b' ∨ x = 'B' then
      match radixVal 2 r with | some v => .fin v | none => .nan
    else parseUnsignedDecimal ('0' :: x :: r)
  | '+' :: r => parseUnsignedDecimal r
  | '-' :: r => (parseUnsignedDecimal r).neg
  | l => parseUnsignedDecimal l

/-! ## `Number(value)` on an arbitrary value -/

/-- Whether an object literal has an own property of the given name. -/
def hasOwn (props : List (String × JSVal)) (key : String) : Bool :=
  props.any (fun p => p.1 == key)

mutual
/-- Whether ToString of the value raises a TypeError. An object parsed from
JSON with an own `toString` property shadows `Object.prototype.toString` with
something that cannot be called; an array joins the strings of its items. -/
def toStringThrows : JSVal → Bool
  | .obj props => hasOwn props "toString"
  | .arr items => anyToStringThrows items
  | _ => false
/-- Whether ToString of some item of the list raises a TypeError. -/
def anyToStringThrows : List JSVal → Bool
  | [] => false
  | v :: vs => toStringThrows v || anyToStringThrows vs
end

/-- The builtin `Number(value)`.

* `undefined` is NaN, `null` is `0`, `true` is `1`, `false` is `0`;
* a string goes through `stringToNumber`;
* an object is first converted to a primitive: `Object.prototype.valueOf` gives
  back the object, so the result is that of `toString`, which is the text
  `[object Object]` (NaN) unless an own `toString` property makes it a TypeError;
* an array is converted through `join`: the empty array gives the empty string
  (`0`), an array of one item gives the string of that item (empty for
  `undefined` and `null`; for a number, the text that converts back to the same
  number), and an array of two or more items gives a text with a comma (NaN). -/
def toNumber : JSVal → Except JSError JSNum
  | .undefined => .ok .nan
  | .null => .ok (.fin 0)
  | .bool b => .ok (.fin (if b then 1 else 0))
  | .num n => .ok n
  | .str s => .ok (stringToNumber s)
  | .obj props => if hasOwn props "toString" then .error .typeError else .ok .nan
  | .arr [] => .ok (.fin 0)
  | .arr [.undefined] => .ok (.fin 0)
  | .arr [.null] => .ok (.fin 0)
  | .arr [.bool _] => .ok .nan
  | .arr [.num n] => .ok n
  | .arr [.str s] => .ok (stringToNumber s)
  | .arr [.obj props] => if hasOwn props "toString" then .error .typeError else .ok .nan
  | .arr [.arr items] => toNumber (.arr items)
  | .arr (v :: w :: vs) =>
    if anyToStringThrows (v :: w :: vs) then .error .typeError else .ok .nan

/-! ## The service: `validateMovieData` (server.js, lines 40-68) -/

/-- The four fields the handlers read from `req.body`. -/
structure Body where
  title : JSVal
  genre : JSVal
  year : JSVal
  rating : JSVal

/-- The `data` object that `validateMovieData` returns: `title` and `genre`
are `none` when the optional call `?.trim()` gives `undefined`. -/
structure MovieData where
  title : Option String
  genre : Option String
  year : JSNum
  rating : JSNum
  deriving DecidableEq

/-- The object that `validateMovieData` returns. -/
structure Validation where
  valid : Bool
  errors : List String
  data : MovieData
  deriving DecidableEq

/-- The method call `v.trim()`: the trimmed text of a string, and a TypeError
for every other value (no other value has a callable `trim`). -/
def callTrim : JSVal → Except JSError String
  | .str s => .ok (jsTrim s)
  | _ => .error .typeError

/-- The optional call `v?.trim()`: `undefined` when `v` is `undefined` or
`null`, and `v.trim()` otherwise. -/
def optTrim : JSVal → Except JSError (Option String)
  | .undefined => .ok none
  | .null => .ok none
  | v => (callTrim v).map some

/-- The test `!v || v.trim() === ""` of lines 44 and 45. -/
def fieldMissing (v : JSVal) : Except JSError Bool :=
  if truthy v then (callTrim v).map (fun t => t == "") else .ok true

/-- The test of line 50. -/
def yearOutOfRange (yearNum : JSNum) : Bool :=
  !yearNum.isInteger || yearNum.lt (.ofInt 1895) || yearNum.gt (.ofInt 2026)

/-- The test of line 54. -/
def ratingOutOfRange (ratingNum : JSNum) : Bool :=
  !ratingNum.isInteger || ratingNum.lt (.ofInt 1) || ratingNum.gt (.ofInt 10)

/-- The array `errors` after `push(msg)` when the test holds. -/
def pushIf (test : Bool) (msg : String) (errors : List String) : List String :=
  if test then errors ++ [msg] else errors

/-- The function `validateMovieData`, statement by statement. -/
def validateMovieData (data : Body) : Except JSError Validation := do
  let errors : List String := []
  let titleMissing ← fieldMissing data.title
  let errors := pushIf titleMissing "Titel saknas" errors
  let genreMissing ← fieldMissing data.genre
  let errors := pushIf genreMissing "Genre saknas" errors
  let yearNum ← toNumber data.year
  let ratingNum ← toNumber data.rating
  let errors := pushIf (yearOutOfRange yearNum) "År måste vara mellan 1895 och 2026" errors
  let errors := pushIf (ratingOutOfRange ratingNum) "Betyg måste vara mellan 1 och 10" errors
  let title ← optTrim data.title
  let genre ← optTrim data.genre
  pure { valid := errors.length == 0, errors := errors,
         data := { title := title, genre := genre, year := yearNum, rating := ratingNum } }

/-! ## The `movies` table (server.js, lines 18-27) -/

/-- A stored record. The numeric columns hold the number that was bound. -/
structure Row where
  id : Nat
  title : String
  genre : String
  year : JSNum
  rating : JSNum
  deriving DecidableEq

/-- The table: its rows in rowid order and the AUTOINCREMENT counter, the
largest rowid ever handed out. -/
structure Db where
  rows : List Row
  seq : Nat
  deriving DecidableEq

/-- The table right after `CREATE TABLE`. -/
def Db.empty : Db := { rows := [], seq := 0 }

/-- A failed statement. -/
inductive DbError where
  | constraint
  deriving DecidableEq

/-- The largest rowid in the table, `0` when it is empty. -/
def maxRowid (rows : List Row) : Nat :=
  rows.foldr (fun r m => max r.id m) 0

/-- The column constraints of the table applied to bound values: the four
`NOT NULL` (an `undefined` text and a NaN number are bound as NULL) and
`CHECK(rating >= 1 AND rating <= 10)`. -/
def columnValues (d : MovieData) : Option (String × String × JSNum × JSNum) :=
  match d.title, d.genre with
  | some t, some g =>
    if d.year = .nan ∨ d.rating = .nan then none
    else if d.rating.lt (.ofInt 1) || d.rating.gt (.ofInt 10) then none
    else some (t, g, d.year, d.rating)
  | _, _ => none

/-- What the parameter `:id` of a route denotes for `WHERE id=?`: the rowid the
bound text compares equal to, `none` when it compares equal to no rowid. -/
abbrev RouteId := Option Nat

/-- The condition `WHERE id=?`. -/
def idMatches (id : RouteId) (r : Row) : Bool := decide (id = some r.id)

/-- The statement `INSERT INTO movies (title, genre, year, rating) VALUES (?, ?, ?, ?)`:
the new table and `lastID`. -/
def dbInsert (db : Db) (d : MovieData) : Except DbError (Db × Nat) :=
  match columnValues d with
  | none => .error .constraint
  | some (t, g, y, r) =>
    let id := max db.seq (maxRowid db.rows) + 1
    .ok ({ rows := db.rows ++ [{ id := id, title := t, genre := g, year := y, rating := r }],
           seq := id }, id)

/-- The statement `UPDATE movies SET title=?, genre=?, year=?, rating=? WHERE id=?`:
the new table and `changes`. The constraints are checked on the rows written. -/
def dbUpdate (db : Db) (d : MovieData) (id : RouteId) : Except DbError (Db × Nat) :=
  let changes := db.rows.countP (idMatches id)
  if changes = 0 then .ok (db, 0)
  else match columnValues d with
    | none => .error .constraint
    | some (t, g, y, r) =>
      .ok ({ db with rows := db.rows.map (fun row =>
              if idMatches id row then
                { id := row.id, title := t, genre := g, year := y, rating := r }
              else row) }, changes)

/-- The statement `DELETE FROM movies WHERE id=?`: the new table and `changes`. -/
def dbDelete (db : Db) (id : RouteId) : Db × Nat :=
  ({ db with rows := db.rows.filter (fun row => !idMatches id row) },
   db.rows.countP (idMatches id))

/-! ## The route handlers (server.js, lines 73-204) -/

/-- The JSON payload of a response. -/
inductive ResBody where
  | error (error : String)
  | validationError (error : String) (details : List String)
  | created (id : Nat) (message : String)
  | message (message : String)
  | movies (rows : List Row)
  deriving DecidableEq

/-- A response: status code and payload. -/
structure Response where
  status : Nat
  body : ResBody
  deriving DecidableEq

/-- The global error handler (lines 201-204), which answers a request whose
handler threw. -/
def errorMiddleware : Response := { status := 500, body := .error "Internt serverfel" }

/-- The handler of `GET /movies`. -/
def getMovies (db : Db) : Response := { status := 200, body := .movies db.rows }

/-- The handler of `POST /movies`: the table afterwards and the response. -/
def postMovies (db : Db) (body : Body) : Db × Response :=
  match validateMovieData body with
  | .error _ => (db, errorMiddleware)
  | .ok validation =>
    if !validation.valid then
      (db, { status := 400, body := .validationError "Valideringsfel" validation.errors })
    else
      match dbInsert db validation.data with
      | .error _ => (db, { status := 500, body := .error "Kunde inte skapa film" })
      | .ok (db', lastID) => (db', { status := 201, body := .created lastID "Film skapad" })

/-- The handler of `PUT /movies/:id`: the table afterwards and the response. -/
def putMovie (db : Db) (id : RouteId) (body : Body) : Db × Response :=
  match validateMovieData body with
  | .error _ => (db, errorMiddleware)
  | .ok validation =>
    if !validation.valid then
      (db, { status := 400, body := .validationError "Valideringsfel" validation.errors })
    else
      match dbUpdate db validation.data id with
      | .error _ => (db, { status := 500, body := .error "Kunde inte uppdatera film" })
      | .ok (db', changes) =>
        if changes = 0 then (db', { status := 404, body := .error "Film hittades inte" })
        else (db', { status := 200, body := .message "Film uppdaterad" })

/-- The handler of `DELETE /movies/:id`: the table afterwards and the response. -/
def deleteMovie (db : Db) (id : RouteId) : Db × Response :=
  match dbDelete db id with
  | (db', changes) =>
    if changes = 0 then (db', { status := 404, body := .error "Film hittades inte" })
    else (db', { status := 200, body := .message "Film borttagen" })

/-- A write request to the service. -/
inductive Request where
  | create (body : Body)
  | update (id : RouteId) (body : Body)
  | delete (id : RouteId)

/-- The table after the service has handled one request. -/
def step (db : Db) : Request → Db
  | .create body => (postMovies db body).1
  | .update id body => (putMovie db id body).1
  | .delete id => (deleteMovie db id).1

/-- The table after the service has handled the requests in order. -/
def run (db : Db) (reqs : List Request) : Db := reqs.foldl step db

/-- Whether the service accepts a body: `validateMovieData` returns and its
`valid` flag is set. -/
def serverAccepts (body : Body) : Bool :=
  match validateMovieData body with
  | .ok validation => validation.valid
  | .error _ => false

/-! ## The client: `sortMovies` (script.js, lines 56-75) -/

/-- A movie as the client lists it, with the field types of the data model:
text for `title` and `genre`, integers for `year` and `rating`. -/
structure Movie where
  id : Nat
  title : String
  genre : String
  year : Int
  rating : Int
  deriving DecidableEq

/-- The builtin `Array.prototype.sort(cmp)`: a stable sort, which puts `a`
before `b` when `cmp a b` is negative and keeps their order when it is zero.
For a consistent comparator every stable sort gives this result. -/
def arraySort {α : Type} (cmp : α → α → Int) (items : List α) : List α :=
  items.insertionSort (fun a b => cmp a b ≤ 0)

/-- The two arrays in play when `sortMovies` returns: the array it returns and
the array it was given. -/
structure SortOutcome where
  returned : List Movie
  movies : List Movie
  deriving DecidableEq

/-- The function `sortMovies`. `localeCompare a b` stands for the builtin
`a.localeCompare(b, 'sv')`. The spread `[...movies]` makes `sorted` a fresh
array, which `sort` reorders in place and returns; `movies` is never written.
The differences `b.rating - a.rating` are taken on integers: on finite doubles
the rounded difference has the sign of the exact one. -/
def sortMovies (localeCompare : String → String → Int) (movies : List Movie)
    (sortBy : String) : SortOutcome :=
  let sorted := movies
  let returned :=
    if sortBy = "title" then arraySort (fun a b => localeCompare a.title b.title) sorted
    else if sortBy = "rating-desc" then arraySort (fun a b => b.rating - a.rating) sorted
    else if sortBy = "rating-asc" then arraySort (fun a b => a.rating - b.rating) sorted
    else if sortBy = "year-desc" then arraySort (fun a b => b.year - a.year) sorted
    else if sortBy = "year-asc" then arraySort (fun a b => a.year - b.year) sorted
    else if sortBy = "genre" then arraySort (fun a b => localeCompare a.genre b.genre) sorted
    else sorted
  { returned := returned, movies := movies }

/-- The six sort keys that `sortMovies` has a case for. -/
def supportedKeys : List String :=
  ["title", "rating-desc", "rating-asc", "year-desc", "year-asc", "genre"]

/-- A consistent comparator in the sense of ECMAScript: the sign of `cmp a b`
is opposite to that of `cmp b a`, and being at most zero is transitive. -/
def ConsistentComparator {α : Type} (cmp : α → α → Int) : Prop :=
  (∀ a b, cmp a b < 0 ↔ 0 < cmp b a) ∧
  (∀ a b c, cmp a b ≤ 0 → cmp b c ≤ 0 → cmp a c ≤ 0)

/-- The order a sort key asks for, as the specification words it: ascending by
title, genre, rating or year, or descending by rating or year; text is compared
by `localeCompare`. -/
def OrderedBy (localeCompare : String → String → Int) (sortBy : String)
    (l : List Movie) : Prop :=
  if sortBy = "title" then l.Pairwise (fun a b => localeCompare a.title b.title ≤ 0)
  else if sortBy = "rating-desc" then l.Pairwise (fun a b => a.rating ≥ b.rating)
  else if sortBy = "rating-asc" then l.Pairwise (fun a b => a.rating ≤ b.rating)
  else if sortBy = "year-desc" then l.Pairwise (fun a b => a.year ≥ b.year)
  else if sortBy = "year-asc" then l.Pairwise (fun a b => a.year ≤ b.year)
  else if sortBy = "genre" then l.Pairwise (fun a b => localeCompare a.genre b.genre ≤ 0)
  else True

/-- Whether two movies compare equal under a sort key. -/
def sameKey (localeCompare : String → String → Int) (sortBy : String)
    (m a : Movie) : Bool :=
  if sortBy = "title" then decide (localeCompare a.title m.title = 0)
  else if sortBy = "rating-desc" ∨ sortBy = "rating-asc" then decide (a.rating = m.rating)
  else if sortBy = "year-desc" ∨ sortBy = "year-asc" then decide (a.year = m.year)
  else if sortBy = "genre" then decide (localeCompare a.genre m.genre = 0)
  else true

/-- Lexicographic comparison of two texts by code point. -/
def compareChars : List Char → List Char → Int
  | [], [] => 0
  | [], _ :: _ => -1
  | _ :: _, [] => 1
  | a :: as, b :: bs =>
    if a.toNat < b.toNat then -1
    else if b.toNat < a.toNat then 1
    else compareChars as bs

/-- A comparator of text by code points, an instance of a consistent comparator. -/
def codePointCompare (a b : String) : Int := compareChars a.data b.data

/-! ## The client: the submit handler (script.js, lines 83-107) -/

/-- A year that is an integer in [1895, 2026]. -/
def yearOk (n : JSNum) : Prop := ∃ k : Int, n = .fin k ∧ 1895 ≤ k ∧ k ≤ 2026

/-- A rating that is an integer in [1, 10]. -/
def ratingOk (n : JSNum) : Prop := ∃ k : Int, n = .fin k ∧ 1 ≤ k ∧ k ≤ 10

/-- The four field constraints on a stored record. -/
def RowOk (r : Row) : Prop :=
  jsTrim r.title ≠ "" ∧ jsTrim r.genre ≠ "" ∧ yearOk r.year ∧ ratingOk r.rating

/-- A valid Movie input, as the specification words it: `title` and `genre` are
texts `t` and `g` that are non-empty after trimming, `year` coerces to `y`, an
integer in [1895, 2026], and `rating` coerces to `r`, an integer in [1, 10]. -/
def ValidInput (body : Body) (t g : String) (y r : JSNum) : Prop :=
  body.title = .str t ∧ body.genre = .str g ∧ jsTrim t ≠ "" ∧ jsTrim g ≠ "" ∧
  toNumber body.year = .ok y ∧ yearOk y ∧ toNumber body.rating = .ok r ∧ ratingOk r

/-- The record that a valid input is stored as under the given rowid. -/
def storedRow (id : Nat) (t g : String) (y r : JSNum) : Row :=
  { id := id, title := jsTrim t, genre := jsTrim g, year := y, rating := r }

/-- A text field that is not non-empty after trimming: absent, `null`, or a
text that trims to the empty text. -/
def textMissing : JSVal → Bool
  | .str s => jsTrim s == ""
  | _ => true

/-! ## Sample data -/

/-- The movie of the scenario of the specification, with a space before the title. -/
def alienBody : Body :=
  { title := .str " Alien", genre := .str "Sci-Fi", year := .num (.fin 1979), rating := .num (.fin 9) }

/-- A replacement for the movie of the scenario, with the year sent as text. -/
def horrorBody : Body :=
  { title := .str "Alien", genre := .str "Horror", year := .str "1979", rating := .num (.fin 9) }

/-- A body with an empty title. -/
def untitledBody : Body :=
  { title := .str "", genre := .str "Sci-Fi", year := .num (.fin 1979), rating := .num (.fin 9) }

/-- A body whose title is the number 5. -/
def numericTitleBody : Body :=
  { title := .num (.fin 5), genre := .str "Drama", year := .num (.fin 1999), rating := .num (.fin 7) }

/-- A body whose title is the number 5 and whose rating is out of range. -/
def numericTitleBadRatingBody : Body :=
  { title := .num (.fin 5), genre := .str "Drama", year := .num (.fin 1999), rating := .num (.fin 11) }

/-- A table of two records. -/
def twoMovieDb : Db :=
  { rows := [{ id := 1, title := "Alien", genre := "Sci-Fi", year := .fin 1979, rating := .fin 9 },
             { id := 2, title := "Heat", genre := "Crime", year := .fin 1995, rating := .fin 8 }],
    seq := 2 }

/-- A sequence of write requests: a Create, an Update of the record created, a
Create whose validation throws, a Create that is rejected, and a Delete of an
id that is not stored. -/
def sampleRequests : List Request :=
  [.create alienBody, .update (some 1) horrorBody, .create numericTitleBody,
   .create untitledBody, .delete (some 5)]

/-- A list of movies for the client to sort. -/
def sampleMovies : List Movie :=
  [{ id := 1, title := "Heat", genre := "Crime", year := 1995, rating := 8 },
   { id := 2, title := "Alien", genre := "Sci-Fi", year := 1979, rating := 9 },
   { id := 3, title := "Ronin", genre := "Crime", year := 1998, rating := 8 }]

theorem ConsistentComparator.total {α : Type} {cmp : α → α → Int}
    (h : ConsistentComparator cmp) (a b : α) : cmp a b ≤ 0 ∨ cmp b a ≤ 0 := by
  by_cases hab : cmp a b ≤ 0
  · exact Or.inl hab
  · right
    have : cmp b a < 0 := (h.1 b a).mpr (by omega)
    omega

theorem ConsistentComparator.symm_zero {α : Type} {cmp : α → α → Int}
    (h : ConsistentComparator cmp) {a b : α} (hab : cmp a b = 0) : cmp b a = 0 := by
  have h1 := h.1 a b
  have h2 := h.1 b a
  omega

theorem ConsistentComparator.comap {α β : Type} {cmp : α → α → Int}
    (h : ConsistentComparator cmp) (f : β → α) :
    ConsistentComparator (fun a b => cmp (f a) (f b)) :=
  ⟨fun a b => h.1 (f a) (f b), fun a b c => h.2 (f a) (f b) (f c)⟩

theorem consistent_asc {α : Type} (key : α → Int) :
    ConsistentComparator (fun a b => key a - key b) := by
  refine ⟨fun a b => ?_, fun a b c h1 h2 => ?_⟩
  · dsimp only
    omega
  · dsimp only at h1 h2 ⊢
    omega

theorem consistent_desc {α : Type} (key : α → Int) :
    ConsistentComparator (fun a b => key b - key a) := by
  refine ⟨fun a b => ?_, fun a b c h1 h2 => ?_⟩
  · dsimp only
    omega
  · dsimp only at h1 h2 ⊢
    omega

theorem arraySort_perm {α : Type} (cmp : α → α → Int) (l : List α) :
    (arraySort cmp l).Perm l :=
  List.perm_insertionSort _ l

theorem arraySort_pairwise {α : Type} {cmp : α → α → Int}
    (h : ConsistentComparator cmp) (l : List α) :
    (arraySort cmp l).Pairwise (fun a b => cmp a b ≤ 0) := by
  haveI : IsTotal α (fun a b => cmp a b ≤ 0) := ⟨h.total⟩
  haveI : IsTrans α (fun a b => cmp a b ≤ 0) := ⟨h.2⟩
  exact List.sorted_insertionSort _ l

theorem arraySort_eq_self {α : Type} (cmp : α → α → Int) {l : List α}
    (hl : l.Pairwise (fun a b => cmp a b ≤ 0)) : arraySort cmp l = l :=
  List.Sorted.insertionSort_eq hl

theorem arraySort_idem {α : Type} {cmp : α → α → Int}
    (h : ConsistentComparator cmp) (l : List α) :
    arraySort cmp (arraySort cmp l) = arraySort cmp l :=
  arraySort_eq_self cmp (arraySort_pairwise h l)

/-- Stability: the items of a class whose members never compare after one
another come out in their input order. -/
theorem arraySort_filter {α : Type} (cmp : α → α → Int) (p : α → Bool)
    (hp : ∀ a b, p a = true → p b = true → cmp a b ≤ 0) (l : List α) :
    (arraySort cmp l).filter p = l.filter p := by
  have hpw : (l.filter p).Pairwise (fun a b => cmp a b ≤ 0) := by
    rw [List.pairwise_iff_forall_sublist]
    intro a b hab
    have ha : a ∈ l.filter p := hab.subset (by simp)
    have hb : b ∈ l.filter p := hab.subset (by simp)
    exact hp a b (List.mem_filter.mp ha).2 (List.mem_filter.mp hb).2
  have hsub : List.Sublist (l.filter p) (arraySort cmp l) :=
    List.sublist_insertionSort hpw (List.filter_sublist l)
  have hsub2 : List.Sublist (l.filter p) ((arraySort cmp l).filter p) := by
    have := hsub.filter p
    simpa [List.filter_filter] using this
  have hlen : ((arraySort cmp l).filter p).length = (l.filter p).length :=
    ((arraySort_perm cmp l).filter p).length_eq
  exact (hsub2.eq_of_length hlen.symm).symm

theorem compareChars_antisymm :
    ∀ a b : List Char, compareChars a b < 0 ↔ 0 < compareChars b a
  | [], [] => by simp [compareChars]
  | [], _ :: _ => by simp [compareChars]
  | _ :: _, [] => by simp [compareChars]
  | a :: as, b :: bs => by
    have ih := compareChars_antisymm as bs
    simp only [compareChars]
    split_ifs <;> omega

theorem compareChars_trans :
    ∀ a b c : List Char, compareChars a b ≤ 0 → compareChars b c ≤ 0 → compareChars a c ≤ 0
  | [], [], [] => by simp [compareChars]
  | [], [], _ :: _ => by simp [compareChars]
  | [], _ :: _, [] => by simp [compareChars]
  | [], _ :: _, _ :: _ => by simp [compareChars]
  | _ :: _, [], _ => by simp [compareChars]
  | _ :: _, _ :: _, [] => by simp [compareChars]
  | a :: as, b :: bs, c :: cs => by
    have ih := compareChars_trans as bs cs
    simp only [compareChars]
    split_ifs <;> omega

theorem codePointCompare_consistent : ConsistentComparator codePointCompare :=
  ⟨fun a b => compareChars_antisymm a.data b.data,
   fun a b c => compareChars_trans a.data b.data c.data⟩

/-! ## `sortMovies` -/

/-- The comparator `sortMovies` hands to `sort` for a supported key. -/
theorem sortMovies_returned_eq (lc : String → String → Int) (movies : List Movie)
    (sortBy : String) (hk : sortBy ∈ supportedKeys) :
    ∃ cmp : Movie → Movie → Int,
      (sortMovies lc movies sortBy).returned = arraySort cmp movies ∧
      (ConsistentComparator lc → ConsistentComparator cmp) ∧
      (∀ l, l.Pairwise (fun a b => cmp a b ≤ 0) → OrderedBy lc sortBy l) ∧
      (ConsistentComparator lc → ∀ m a b, sameKey lc sortBy m a = true →
        sameKey lc sortBy m b = true → cmp a b ≤ 0) := by
  simp only [supportedKeys, List.mem_cons, List.mem_singleton, List.not_mem_nil,
    or_false] at hk
  rcases hk with rfl | rfl | rfl | rfl | rfl | rfl
  · refine ⟨fun a b => lc a.title b.title, by simp [sortMovies], fun h => h.comap _,
      fun l hl => by simpa [OrderedBy] using hl, fun h m a b ha hb => ?_⟩
    simp [sameKey] at ha hb
    exact h.2 _ _ _ (le_of_eq ha) (le_of_eq (h.symm_zero hb))
  · refine ⟨fun a b => b.rating - a.rating, by simp [sortMovies], fun _ => consistent_desc _,
      fun l hl => ?_, fun h m a b ha hb => ?_⟩
    · simp [OrderedBy]
      exact hl.imp (fun h => by dsimp only at h; omega)
    · simp [sameKey] at ha hb
      dsimp only
      omega
  · refine ⟨fun a b => a.rating - b.rating, by simp [sortMovies], fun _ => consistent_asc _,
      fun l hl => ?_, fun h m a b ha hb => ?_⟩
    · simp [OrderedBy]
      exact hl.imp (fun h => by dsimp only at h; omega)
    · simp [sameKey] at ha hb
      dsimp only
      omega
  · refine ⟨fun a b => b.year - a.year, by simp [sortMovies], fun _ => consistent_desc _,
      fun l hl => ?_, fun h m a b ha hb => ?_⟩
    · simp [OrderedBy]
      exact hl.imp (fun h => by dsimp only at h; omega)
    · simp [sameKey] at ha hb
      dsimp only
      omega
  · refine ⟨fun a b => a.year - b.year, by simp [sortMovies], fun _ => consistent_asc _,
      fun l hl => ?_, fun h m a b ha hb => ?_⟩
    · simp [OrderedBy]
      exact hl.imp (fun h => by dsimp only at h; omega)
    · simp [sameKey] at ha hb
      dsimp only
      omega
  · refine ⟨fun a b => lc a.genre b.genre, by simp [sortMovies], fun h => h.comap _,
      fun l hl => by simpa [OrderedBy] using hl, fun h m a b ha hb => ?_⟩
    simp [sameKey] at ha hb
    exact h.2 _ _ _ (le_of_eq ha) (le_of_eq (h.symm_zero hb))

/-! ## `trim` -/

theorem trimChars_idem (l : List Char) : trimChars (trimChars l) = trimChars l := by
  unfold trimChars
  have hdrop : List.dropWhile isJSWhiteSpace
      (List.rdropWhile isJSWhiteSpace (List.dropWhile isJSWhiteSpace l))
      = List.rdropWhile isJSWhiteSpace (List.dropWhile isJSWhiteSpace l) := by
    obtain ⟨t, ht⟩ := List.rdropWhile_prefix isJSWhiteSpace
      (l := List.dropWhile isJSWhiteSpace l)
    cases hB : List.rdropWhile isJSWhiteSpace (List.dropWhile isJSWhiteSpace l) with
    | nil => rfl
    | cons b B =>
      rw [hB] at ht
      have hb : ¬ isJSWhiteSpace b = true := by
        have hh := List.head_dropWhile_not isJSWhiteSpace l
        intro hb
        rw [← ht] at hh
        simp [hb] at hh
      simp [List.dropWhile, hb]
  rw [hdrop, List.rdropWhile_idempotent]

theorem jsTrim_idem (s : String) : jsTrim (jsTrim s) = jsTrim s := by
  simp [jsTrim, trimChars_idem]

theorem jsTrim_empty : jsTrim "" = "" := by decide

/-! ## Numbers -/

theorem isInteger_iff (n : JSNum) : n.isInteger = true ↔ ∃ k : Int, n = .fin k := by
  cases n with
  | nan => simp [JSNum.isInteger]
  | inf b => simp [JSNum.isInteger]
  | fin q =>
    simp only [JSNum.isInteger, decide_eq_true_eq, JSNum.fin.injEq]
    constructor
    · intro h
      exact ⟨q.num, (Rat.coe_int_num_of_den_eq_one h).symm⟩
    · rintro ⟨k, rfl⟩
      simp

theorem yearOutOfRange_eq_false_iff (n : JSNum) : yearOutOfRange n = false ↔ yearOk n := by
  constructor
  · intro h
    simp only [yearOutOfRange, Bool.or_eq_false_iff, Bool.not_eq_false'] at h
    obtain ⟨⟨hi, hlo⟩, hhi⟩ := h
    obtain ⟨k, rfl⟩ := (isInteger_iff n).mp hi
    refine ⟨k, rfl, ?_, ?_⟩
    · simp [JSNum.lt, JSNum.ofInt] at hlo
      exact_mod_cast hlo
    · simp [JSNum.gt, JSNum.lt, JSNum.ofInt] at hhi
      exact_mod_cast hhi
  · rintro ⟨k, rfl, h1, h2⟩
    have h1q : (1895 : ℚ) ≤ (k : ℚ) := by exact_mod_cast h1
    have h2q : (k : ℚ) ≤ (2026 : ℚ) := by exact_mod_cast h2
    simp [yearOutOfRange, JSNum.isInteger, JSNum.lt, JSNum.gt, JSNum.ofInt, h1q, h2q]

theorem ratingOutOfRange_eq_false_iff (n : JSNum) :
    ratingOutOfRange n = false ↔ ratingOk n := by
  constructor
  · intro h
    simp only [ratingOutOfRange, Bool.or_eq_false_iff, Bool.not_eq_false'] at h
    obtain ⟨⟨hi, hlo⟩, hhi⟩ := h
    obtain ⟨k, rfl⟩ := (isInteger_iff n).mp hi
    refine ⟨k, rfl, ?_, ?_⟩
    · simp [JSNum.lt, JSNum.ofInt] at hlo
      exact_mod_cast hlo
    · simp [JSNum.gt, JSNum.lt, JSNum.ofInt] at hhi
      exact_mod_cast hhi
  · rintro ⟨k, rfl, h1, h2⟩
    have h1q : (1 : ℚ) ≤ (k : ℚ) := by exact_mod_cast h1
    have h2q : (k : ℚ) ≤ (10 : ℚ) := by exact_mod_cast h2
    simp [ratingOutOfRange, JSNum.isInteger, JSNum.lt, JSNum.gt, JSNum.ofInt, h1q, h2q]

/-- When both the test of line 44 and the optional call of line 62 return, the
field is absent, `null`, or a text. -/
theorem field_ok {v : JSVal} {m : Bool} {t : Option String}
    (h1 : fieldMissing v = .ok m) (h2 : optTrim v = .ok t) :
    (m = true ∧ t = none ∧ (v = .undefined ∨ v = .null)) ∨
    (∃ s, v = .str s ∧ t = some (jsTrim s) ∧ m = (jsTrim s == "")) := by
  cases v with
  | undefined => left; simp_all [fieldMissing, optTrim, truthy]
  | null => left; simp_all [fieldMissing, optTrim, truthy]
  | bool b => simp [optTrim, callTrim, Except.map] at h2
  | num n => simp [optTrim, callTrim, Except.map] at h2
  | arr l => simp [optTrim, callTrim, Except.map] at h2
  | obj l => simp [optTrim, callTrim, Except.map] at h2
  | str s =>
    right
    refine ⟨s, rfl, ?_, ?_⟩
    · simp [optTrim, callTrim, Except.map] at h2
      exact h2.symm
    · by_cases hs : s = ""
      · subst hs
        simp [fieldMissing, truthy] at h1
        subst h1
        decide
      · simp [fieldMissing, truthy, hs, callTrim, Except.map] at h1
        rw [← h1]

/-- What `validateMovieData` returns, when it returns. -/
theorem validateMovieData_ok {body : Body} {v : Validation}
    (h : validateMovieData body = .ok v) :
    ∃ tm gm y r t g, fieldMissing body.title = .ok tm ∧ fieldMissing body.genre = .ok gm ∧
      toNumber body.year = .ok y ∧ toNumber body.rating = .ok r ∧
      optTrim body.title = .ok t ∧ optTrim body.genre = .ok g ∧
      v.errors = pushIf (ratingOutOfRange r) "Betyg måste vara mellan 1 och 10"
        (pushIf (yearOutOfRange y) "År måste vara mellan 1895 och 2026"
          (pushIf gm "Genre saknas" (pushIf tm "Titel saknas" []))) ∧
      v.valid = (v.errors.length == 0) ∧
      v.data = { title := t, genre := g, year := y, rating := r } := by
  unfold validateMovieData at h
  cases h1 : fieldMissing body.title <;> cases h2 : fieldMissing body.genre <;>
  cases h3 : toNumber body.year <;> cases h4 : toNumber body.rating <;>
  cases h5 : optTrim body.title <;> cases h6 : optTrim body.genre <;>
  simp [h1, h2, h3, h4, h5, h6, bind, Except.bind, pure, Except.pure] at h
  subst h
  exact ⟨_, _, _, _, _, _, rfl, rfl, rfl, rfl, rfl, rfl, rfl, rfl, rfl⟩

theorem pushIf_length_zero (a b c d : Bool) (m1 m2 m3 m4 : String) :
    ((pushIf d m4 (pushIf c m3 (pushIf b m2 (pushIf a m1 [])))).length == 0) = true ↔
      a = false ∧ b = false ∧ c = false ∧ d = false := by
  cases a <;> cases b <;> cases c <;> cases d <;> simp [pushIf]

/-- A body that `validateMovieData` passes is a valid input, and `data` holds
its trimmed texts and coerced numbers. -/
theorem valid_of_ok {body : Body} {v : Validation}
    (h : validateMovieData body = .ok v) (hv : v.valid = true) :
    ∃ t g y r, ValidInput body t g y r ∧ v.errors = [] ∧
      v.data = { title := some (jsTrim t), genre := some (jsTrim g), year := y, rating := r } := by
  obtain ⟨tm, gm, y, r, t, g, h1, h2, h3, h4, h5, h6, he, hval, hd⟩ := validateMovieData_ok h
  rw [hval, he, pushIf_length_zero] at hv
  obtain ⟨rfl, rfl, hy, hr⟩ := hv
  rcases field_ok h1 h5 with ⟨hc, -, -⟩ | ⟨s1, hs1, rfl, hm1⟩
  · exact absurd hc (by decide)
  rcases field_ok h2 h6 with ⟨hc, -, -⟩ | ⟨s2, hs2, rfl, hm2⟩
  · exact absurd hc (by decide)
  refine ⟨s1, s2, y, r, ⟨hs1, hs2, ?_, ?_, h3, (yearOutOfRange_eq_false_iff y).mp hy, h4,
    (ratingOutOfRange_eq_false_iff r).mp hr⟩, ?_, hd⟩
  · intro hc
    rw [hc] at hm1
    exact absurd hm1 (by decide)
  · intro hc
    rw [hc] at hm2
    exact absurd hm2 (by decide)
  · rw [he, (yearOutOfRange_eq_false_iff y).mp hy |> (yearOutOfRange_eq_false_iff y).mpr,
      (ratingOutOfRange_eq_false_iff r).mp hr |> (ratingOutOfRange_eq_false_iff r).mpr]
    rfl

theorem fieldMissing_str {s : String} (hs : jsTrim s ≠ "") :
    fieldMissing (.str s) = .ok false := by
  have hne : s ≠ "" := by
    rintro rfl
    exact hs jsTrim_empty
  simp [fieldMissing, truthy, hne, callTrim, Except.map, hs]

/-- A valid input passes `validateMovieData`, with no error and with the
trimmed texts and coerced numbers as `data`. -/
theorem ok_of_valid {body : Body} {t g : String} {y r : JSNum}
    (h : ValidInput body t g y r) :
    validateMovieData body = .ok
      { valid := true, errors := [],
        data := { title := some (jsTrim t), genre := some (jsTrim g), year := y, rating := r } } := by
  obtain ⟨ht, hg, htn, hgn, hy, hyo, hr, hro⟩ := h
  unfold validateMovieData
  rw [ht, hg, hy, hr, fieldMissing_str htn, fieldMissing_str hgn]
  simp [bind, Except.bind, pure, Except.pure, pushIf, optTrim, callTrim, Except.map,
    (yearOutOfRange_eq_false_iff y).mpr hyo, (ratingOutOfRange_eq_false_iff r).mpr hro]

/-- On a body whose title and genre are each absent, `null` or a text, and
whose year and rating convert to numbers, `validateMovieData` returns: the
errors list has one message per violated constraint, in the order title, genre,
year, rating, and `valid` is set exactly when no constraint is violated. -/
theorem validateMovieData_returns (body : Body) (y r : JSNum)
    (ht : body.title = .undefined ∨ body.title = .null ∨ ∃ s, body.title = .str s)
    (hg : body.genre = .undefined ∨ body.genre = .null ∨ ∃ s, body.genre = .str s)
    (hy : toNumber body.year = .ok y) (hr : toNumber body.rating = .ok r) :
    ∃ v, validateMovieData body = .ok v ∧
      v.errors = pushIf (ratingOutOfRange r) "Betyg måste vara mellan 1 och 10"
        (pushIf (yearOutOfRange y) "År måste vara mellan 1895 och 2026"
          (pushIf (textMissing body.genre) "Genre saknas"
            (pushIf (textMissing body.title) "Titel saknas" []))) ∧
      (v.valid = true ↔ textMissing body.title = false ∧ textMissing body.genre = false ∧
        yearOk y ∧ ratingOk r) := by
  have hfield : ∀ x : JSVal, (x = .undefined ∨ x = .null ∨ ∃ s, x = .str s) →
      fieldMissing x = .ok (textMissing x) ∧ ∃ o, optTrim x = .ok o := by
    rintro x (rfl | rfl | ⟨s, rfl⟩)
    · exact ⟨rfl, none, rfl⟩
    · exact ⟨rfl, none, rfl⟩
    · refine ⟨?_, some (jsTrim s), rfl⟩
      by_cases hs : s = ""
      · subst hs
        rfl
      · simp [fieldMissing, truthy, hs, callTrim, Except.map, textMissing]
  obtain ⟨h1, o1, h5⟩ := hfield body.title ht
  obtain ⟨h2, o2, h6⟩ := hfield body.genre hg
  refine ⟨_, by
    unfold validateMovieData
    rw [h1, h2, hy, hr, h5, h6]
    rfl, rfl, ?_⟩
  simp only [pushIf_length_zero, yearOutOfRange_eq_false_iff, ratingOutOfRange_eq_false_iff]

/-! ## The table -/

theorem columnValues_valid (a b : String) {y r : JSNum} (hy : yearOk y) (hr : ratingOk r) :
    columnValues { title := some a, genre := some b, year := y, rating := r }
      = some (a, b, y, r) := by
  obtain ⟨k, rfl, -, -⟩ := hy
  have hr2 := (ratingOutOfRange_eq_false_iff r).mpr hr
  obtain ⟨j, rfl, -, -⟩ := hr
  simp only [ratingOutOfRange, Bool.or_eq_false_iff] at hr2
  simp [columnValues, hr2.1.2, hr2.2]

theorem le_maxRowid {rows : List Row} {row : Row} (h : row ∈ rows) :
    row.id ≤ maxRowid rows := by
  induction rows with
  | nil => simp at h
  | cons a l ih =>
    simp only [maxRowid, List.foldr_cons]
    rcases List.mem_cons.mp h with rfl | h
    · exact le_max_left _ _
    · exact le_trans (ih h) (le_max_right _ _)

/-- The effect of `POST /movies` on a valid input. -/
theorem postMovies_valid (db : Db) {body : Body} {t g : String} {y r : JSNum}
    (h : ValidInput body t g y r) :
    postMovies db body =
      ({ rows := db.rows ++ [storedRow (max db.seq (maxRowid db.rows) + 1) t g y r],
         seq := max db.seq (maxRowid db.rows) + 1 },
       { status := 201, body := .created (max db.seq (maxRowid db.rows) + 1) "Film skapad" }) := by
  simp [postMovies, ok_of_valid h, dbInsert, columnValues_valid _ _ h.2.2.2.2.2.1 h.2.2.2.2.2.2.2,
    storedRow]

/-- The effect of `PUT /movies/:id` on a valid input. -/
theorem putMovie_valid (db : Db) (id : RouteId) {body : Body} {t g : String} {y r : JSNum}
    (h : ValidInput body t g y r) :
    putMovie db id body =
      if db.rows.countP (idMatches id) = 0 then
        (db, { status := 404, body := .error "Film hittades inte" })
      else
        ({ db with rows := db.rows.map (fun row =>
            if idMatches id row then storedRow row.id t g y r else row) },
         { status := 200, body := .message "Film uppdaterad" }) := by
  by_cases hc : db.rows.countP (idMatches id) = 0
  · simp [putMovie, ok_of_valid h, dbUpdate, hc]
  · simp [putMovie, ok_of_valid h, dbUpdate, hc,
      columnValues_valid _ _ h.2.2.2.2.2.1 h.2.2.2.2.2.2.2, storedRow]

theorem storedRow_ok (id : Nat) {body : Body} {t g : String} {y r : JSNum}
    (h : ValidInput body t g y r) : RowOk (storedRow id t g y r) := by
  obtain ⟨-, -, htn, hgn, -, hyo, -, hro⟩ := h
  refine ⟨?_, ?_, hyo, hro⟩
  · simpa [storedRow, jsTrim_idem] using htn
  · simpa [storedRow, jsTrim_idem] using hgn

/-! ## The handlers -/

theorem postMovies_unchanged_or_valid (db : Db) (body : Body) :
    (postMovies db body).1 = db ∨ ∃ t g y r, ValidInput body t g y r := by
  cases hv : validateMovieData body with
  | error e => left; simp [postMovies, hv]
  | ok v =>
    by_cases hvalid : v.valid = true
    · right
      obtain ⟨t, g, y, r, h, -, -⟩ := valid_of_ok hv hvalid
      exact ⟨t, g, y, r, h⟩
    · left; simp [postMovies, hv, hvalid]

theorem putMovie_unchanged_or_valid (db : Db) (id : RouteId) (body : Body) :
    (putMovie db id body).1 = db ∨ ∃ t g y r, ValidInput body t g y r := by
  cases hv : validateMovieData body with
  | error e => left; simp [putMovie, hv]
  | ok v =>
    by_cases hvalid : v.valid = true
    · right
      obtain ⟨t, g, y, r, h, -, -⟩ := valid_of_ok hv hvalid
      exact ⟨t, g, y, r, h⟩
    · left; simp [putMovie, hv, hvalid]

theorem countP_idMatches_eq_zero {db : Db} {id : RouteId}
    (hid : ∀ row ∈ db.rows, idMatches id row = false) :
    db.rows.countP (idMatches id) = 0 := by
  rw [List.countP_eq_zero]
  intro row hrow
  simp [hid row hrow]

theorem step_preserves (db : Db) (req : Request) (h : ∀ row ∈ db.rows, RowOk row) :
    ∀ row ∈ (step db req).rows, RowOk row := by
  cases req with
  | create body =>
    rcases postMovies_unchanged_or_valid db body with hu | ⟨t, g, y, r, hv⟩
    · simpa [step, hu] using h
    · intro row hrow
      simp only [step, postMovies_valid db hv, List.mem_append, List.mem_singleton] at hrow
      rcases hrow with hrow | rfl
      · exact h row hrow
      · exact storedRow_ok _ hv
  | update id body =>
    rcases putMovie_unchanged_or_valid db id body with hu | ⟨t, g, y, r, hv⟩
    · simpa [step, hu] using h
    · intro row hrow
      simp only [step, putMovie_valid db id hv] at hrow
      split_ifs at hrow with hc
      · exact h row hrow
      · simp only [List.mem_map] at hrow
        obtain ⟨old, hold, rfl⟩ := hrow
        split_ifs
        · exact storedRow_ok _ hv
        · exact h old hold
  | delete id =>
    intro row hrow
    have hmem : row ∈ db.rows := by
      simp only [step, deleteMovie, dbDelete] at hrow
      split_ifs at hrow <;> exact (List.mem_filter.mp hrow).1
    exact h row hmem

theorem run_preserves (reqs : List Request) :
    ∀ db : Db, (∀ row ∈ db.rows, RowOk row) → ∀ row ∈ (run db reqs).rows, RowOk row := by
  induction reqs with
  | nil => intro db h; simpa [run] using h
  | cons req reqs ih =>
    intro db h
    have := ih (step db req) (step_preserves db req h)
    simpa [run] using this

/-! ## The claims -/

/-- C1, at the body `{title: 5, genre: "Drama", year: 1999, rating: 7}`:
`validateMovieData` returns no errors list, it throws a TypeError, because the
number `5` is truthy and has no `trim` method. -/
theorem validateMovieData_throws_on_numeric_title :
    validateMovieData numericTitleBody = .error .typeError := by
  rfl

/-- C2, at the body `{title: 5, genre: "Drama", year: 1999, rating: 11}`, whose
rating is out of range: Create and Update both answer 500 through the global
error handler, not 400 with a details list; the table is unchanged. -/
theorem create_update_answer_500_on_numeric_title :
    toNumber numericTitleBadRatingBody.rating = .ok (.fin 11) ∧
    ratingOutOfRange (.fin 11) = true ∧
    postMovies twoMovieDb numericTitleBadRatingBody
      = (twoMovieDb, { status := 500, body := .error "Internt serverfel" }) ∧
    putMovie twoMovieDb (some 1) numericTitleBadRatingBody
      = (twoMovieDb, { status := 500, body := .error "Internt serverfel" }) := by
  refine ⟨rfl, ?_, ?_, ?_⟩ <;> decide

/-- C3 as stated fails: Create of `{title: " Alien", genre: "Sci-Fi", year: 1979,
rating: 9}` on the empty table answers 201 with id 1, and no listed record with
id 1 has a title identical to the title sent (the stored title is trimmed). -/
theorem create_list_title_not_identical :
    alienBody.title = .str " Alien" ∧
    (postMovies Db.empty alienBody).2 = { status := 201, body := .created 1 "Film skapad" } ∧
    ¬ ∃ row ∈ (postMovies Db.empty alienBody).1.rows, row.id = 1 ∧ row.title = " Alien" := by
  refine ⟨rfl, ?_, ?_⟩ <;> decide

/-- C3, amended: for every table and every valid input, Create answers 201
with an id that no stored record had, and a following List answers 200 with a
record of that id whose title and genre are the trimmed texts sent and whose
year and rating are the numbers the sent values coerce to; it is the only
listed record with that id. -/
theorem create_then_list (db : Db) (body : Body) (t g : String) (y r : JSNum)
    (h : ValidInput body t g y r) :
    ∃ id, (postMovies db body).2 = { status := 201, body := .created id "Film skapad" } ∧
      (∀ row ∈ db.rows, row.id ≠ id) ∧
      ∃ rows, getMovies (postMovies db body).1 = { status := 200, body := .movies rows } ∧
        storedRow id t g y r ∈ rows ∧
        ∀ row ∈ rows, row.id = id → row = storedRow id t g y r := by
  have hfresh : ∀ row ∈ db.rows, row.id ≠ max db.seq (maxRowid db.rows) + 1 := by
    intro row hrow
    have := le_maxRowid hrow
    have := le_max_right db.seq (maxRowid db.rows)
    omega
  refine ⟨max db.seq (maxRowid db.rows) + 1, by rw [postMovies_valid db h], hfresh,
    db.rows ++ [storedRow (max db.seq (maxRowid db.rows) + 1) t g y r],
    by rw [postMovies_valid db h]; rfl, by simp, ?_⟩
  intro row hrow hid
  rcases List.mem_append.mp hrow with hrow | hrow
  · exact absurd hid (hfresh row hrow)
  · simpa using hrow

/-- An instance of `create_then_list`: the padded title on a table of two records. -/
theorem create_then_list_witness :
    ValidInput alienBody " Alien" "Sci-Fi" (.fin 1979) (.fin 9) ∧
    ∃ id, (postMovies twoMovieDb alienBody).2
        = { status := 201, body := .created id "Film skapad" } ∧
      (∀ row ∈ twoMovieDb.rows, row.id ≠ id) ∧
      ∃ rows, getMovies (postMovies twoMovieDb alienBody).1
          = { status := 200, body := .movies rows } ∧
        storedRow id " Alien" "Sci-Fi" (.fin 1979) (.fin 9) ∈ rows ∧
        ∀ row ∈ rows, row.id = id → row = storedRow id " Alien" "Sci-Fi" (.fin 1979) (.fin 9) :=
  have hv : ValidInput alienBody " Alien" "Sci-Fi" (.fin 1979) (.fin 9) :=
    ⟨rfl, rfl, by decide, by decide, rfl, ⟨1979, by simp, by decide, by decide⟩, rfl,
      ⟨9, by simp, by decide, by decide⟩⟩
  ⟨hv, create_then_list twoMovieDb alienBody _ _ _ _ hv⟩

/-- C4 as stated fails: on the empty table, Update of id 1 with the body
`{title: "", genre: "Sci-Fi", year: 1979, rating: 9}` answers 400, not 404. -/
theorem update_missing_id_invalid_body_400 :
    (∀ row ∈ Db.empty.rows, idMatches (some 1) row = false) ∧
    putMovie Db.empty (some 1) untitledBody
      = (Db.empty, { status := 400, body := .validationError "Valideringsfel" ["Titel saknas"] }) := by
  refine ⟨?_, ?_⟩ <;> decide

/-- C4, amended: for every table and every id that no stored record has, Delete
answers 404 and leaves the table as it was; Update leaves the table as it was
for every request body, and answers 404 for every body that passes validation. -/
theorem missing_id_not_found (db : Db) (id : RouteId) (body : Body)
    (hid : ∀ row ∈ db.rows, idMatches id row = false) :
    deleteMovie db id = (db, { status := 404, body := .error "Film hittades inte" }) ∧
    (putMovie db id body).1 = db ∧
    (serverAccepts body = true →
      putMovie db id body = (db, { status := 404, body := .error "Film hittades inte" })) := by
  have hc := countP_idMatches_eq_zero hid
  have hfilter : db.rows.filter (fun row => !idMatches id row) = db.rows := by
    rw [List.filter_eq_self]
    intro row hrow
    simp [hid row hrow]
  refine ⟨by simp [deleteMovie, dbDelete, hc, hfilter], ?_, ?_⟩
  · rcases putMovie_unchanged_or_valid db id body with hu | ⟨t, g, y, r, hv⟩
    · exact hu
    · simp [putMovie_valid db id hv, hc]
  · intro hacc
    cases hv : validateMovieData body with
    | error e => simp [serverAccepts, hv] at hacc
    | ok v =>
      simp only [serverAccepts, hv] at hacc
      obtain ⟨t, g, y, r, hvalid, -, -⟩ := valid_of_ok hv hacc
      simp [putMovie_valid db id hvalid, hc]

/-- An instance of `missing_id_not_found`: id 3 on a table holding ids 1 and 2. -/
theorem missing_id_not_found_witness :
    (∀ row ∈ twoMovieDb.rows, idMatches (some 3) row = false) ∧
    serverAccepts horrorBody = true ∧
    deleteMovie twoMovieDb (some 3)
      = (twoMovieDb, { status := 404, body := .error "Film hittades inte" }) ∧
    (putMovie twoMovieDb (some 3) horrorBody).1 = twoMovieDb ∧
    putMovie twoMovieDb (some 3) horrorBody
      = (twoMovieDb, { status := 404, body := .error "Film hittades inte" }) :=
  have hid : ∀ row ∈ twoMovieDb.rows, idMatches (some 3) row = false := by decide
  have hacc : serverAccepts horrorBody = true := by decide
  have h := missing_id_not_found twoMovieDb (some 3) horrorBody hid
  ⟨hid, hacc, h.1, h.2.1, h.2.2 hacc⟩

/-- C5: starting from the empty table, after any sequence of Create, Update
and Delete requests with arbitrary bodies, every stored record has a title and
a genre that are non-empty after trimming, a year that is an integer in
[1895, 2026] and a rating that is an integer in [1, 10]. -/
theorem stored_rows_satisfy_constraints (reqs : List Request) :
    ∀ row ∈ (run Db.empty reqs).rows, RowOk row :=
  run_preserves reqs Db.empty (by simp [Db.empty])

/-- An instance of `stored_rows_satisfy_constraints`: the record left by the sample requests. -/
theorem stored_rows_satisfy_constraints_witness :
    storedRow 1 "Alien" "Horror" (.fin 1979) (.fin 9) ∈ (run Db.empty sampleRequests).rows ∧
    RowOk (storedRow 1 "Alien" "Horror" (.fin 1979) (.fin 9)) :=
  ⟨by decide, stored_rows_satisfy_constraints sampleRequests _ (by decide)⟩

/-- C6: for every table, every id of a stored record and every valid
replacement body, Update answers 200, and a following List returns the stored
records in their order, where each record with that id holds the same id and
the four updated values (with nothing of the old record) and every record with
another id is unchanged. -/
theorem update_overwrites_fields (db : Db) (n : Nat) (body : Body) (t g : String)
    (y r : JSNum) (hex : ∃ row ∈ db.rows, row.id = n) (h : ValidInput body t g y r) :
    (putMovie db (some n) body).2 = { status := 200, body := .message "Film uppdaterad" } ∧
    getMovies (putMovie db (some n) body).1 =
      { status := 200,
        body := .movies (db.rows.map (fun row =>
          if row.id = n then storedRow n t g y r else row)) } := by
  obtain ⟨old, hold, hn⟩ := hex
  have hc : db.rows.countP (idMatches (some n)) ≠ 0 := by
    intro hc
    rw [List.countP_eq_zero] at hc
    exact hc old hold (by simp [idMatches, hn])
  rw [putMovie_valid db (some n) h, if_neg hc]
  refine ⟨rfl, ?_⟩
  simp only [getMovies, Response.mk.injEq, ResBody.movies.injEq, true_and]
  apply List.map_congr_left
  intro row _
  by_cases hrow : row.id = n
  · simp [idMatches, hrow]
  · have : ¬ n = row.id := fun e => hrow e.symm
    simp [idMatches, hrow, this]

/-- An instance of `update_overwrites_fields`: id 1 of a table of two records, with the year sent as text. -/
theorem update_overwrites_fields_witness :
    (∃ row ∈ twoMovieDb.rows, row.id = 1) ∧
    ValidInput horrorBody "Alien" "Horror" (.fin 1979) (.fin 9) ∧
    (putMovie twoMovieDb (some 1) horrorBody).2
      = { status := 200, body := .message "Film uppdaterad" } ∧
    getMovies (putMovie twoMovieDb (some 1) horrorBody).1 =
      { status := 200,
        body := .movies (twoMovieDb.rows.map (fun row =>
          if row.id = 1 then storedRow 1 "Alien" "Horror" (.fin 1979) (.fin 9) else row)) } :=
  have hex : ∃ row ∈ twoMovieDb.rows, row.id = 1 :=
    ⟨⟨1, "Alien", "Sci-Fi", .fin 1979, .fin 9⟩, by decide, rfl⟩
  have hv : ValidInput horrorBody "Alien" "Horror" (.fin 1979) (.fin 9) :=
    ⟨rfl, rfl, by decide, by decide, rfl, ⟨1979, by simp, by decide, by decide⟩, rfl,
      ⟨9, by simp, by decide, by decide⟩⟩
  ⟨hex, hv, update_overwrites_fields twoMovieDb 1 horrorBody _ _ _ _ hex hv⟩

/-- C7: for every movie list (integer rating and year, text title and genre)
and every supported sort key, `sortMovies` returns a permutation of the input
that is ordered by that key in the stated direction, and the movies that
compare equal to any given movie under the key come out in their input order.
The builtin `localeCompare` is any consistent comparator of texts. -/
theorem sortMovies_sorted_perm_stable (localeCompare : String → String → Int)
    (hlc : ConsistentComparator localeCompare) (movies : List Movie) (sortBy : String)
    (hk : sortBy ∈ supportedKeys) :
    (sortMovies localeCompare movies sortBy).returned.Perm movies ∧
    OrderedBy localeCompare sortBy (sortMovies localeCompare movies sortBy).returned ∧
    ∀ m : Movie,
      (sortMovies localeCompare movies sortBy).returned.filter (sameKey localeCompare sortBy m)
        = movies.filter (sameKey localeCompare sortBy m) := by
  obtain ⟨cmp, heq, hcons, hord, hsame⟩ := sortMovies_returned_eq localeCompare movies sortBy hk
  rw [heq]
  exact ⟨arraySort_perm cmp movies, hord _ (arraySort_pairwise (hcons hlc) movies),
    fun m => arraySort_filter cmp _ (hsame hlc m) movies⟩

/-- An instance of `sortMovies_sorted_perm_stable`: the sample list by descending rating, texts compared by code point. -/
theorem sortMovies_sorted_perm_stable_witness :
    ConsistentComparator codePointCompare ∧ "rating-desc" ∈ supportedKeys ∧
    (sortMovies codePointCompare sampleMovies "rating-desc").returned.Perm sampleMovies ∧
    OrderedBy codePointCompare "rating-desc"
      (sortMovies codePointCompare sampleMovies "rating-desc").returned ∧
    ∀ m : Movie,
      (sortMovies codePointCompare sampleMovies "rating-desc").returned.filter
          (sameKey codePointCompare "rating-desc" m)
        = sampleMovies.filter (sameKey codePointCompare "rating-desc" m) :=
  ⟨codePointCompare_consistent, by decide,
    sortMovies_sorted_perm_stable codePointCompare codePointCompare_consistent sampleMovies
      "rating-desc" (by decide)⟩

/-- C8: sorting is idempotent: for every movie list `S` and every supported
sort key `k`, `sortMovies(sortMovies(S, k), k)` equals `sortMovies(S, k)` as a
sequence. The builtin `localeCompare` is any consistent comparator of texts. -/
theorem sortMovies_idempotent (localeCompare : String → String → Int)
    (hlc : ConsistentComparator localeCompare) (S : List Movie) (k : String)
    (hk : k ∈ supportedKeys) :
    (sortMovies localeCompare (sortMovies localeCompare S k).returned k).returned
      = (sortMovies localeCompare S k).returned := by
  simp only [supportedKeys, List.mem_cons, List.mem_singleton, List.not_mem_nil,
    or_false] at hk
  rcases hk with rfl | rfl | rfl | rfl | rfl | rfl
  · simpa [sortMovies] using arraySort_idem (hlc.comap Movie.title) S
  · simpa [sortMovies] using arraySort_idem (consistent_desc Movie.rating) S
  · simpa [sortMovies] using arraySort_idem (consistent_asc Movie.rating) S
  · simpa [sortMovies] using arraySort_idem (consistent_desc Movie.year) S
  · simpa [sortMovies] using arraySort_idem (consistent_asc Movie.year) S
  · simpa [sortMovies] using arraySort_idem (hlc.comap Movie.genre) S

/-- An instance of `sortMovies_idempotent`: the sample list by title, texts compared by code point. -/
theorem sortMovies_idempotent_witness :
    ConsistentComparator codePointCompare ∧ "title" ∈ supportedKeys ∧
    (sortMovies codePointCompare (sortMovies codePointCompare sampleMovies "title").returned
        "title").returned
      = (sortMovies codePointCompare sampleMovies "title").returned :=
  ⟨codePointCompare_consistent, by decide,
    sortMovies_idempotent codePointCompare codePointCompare_consistent sampleMovies "title"
      (by decide)⟩

end Filmbibliotek
